import Mathlib

/-!
Verification of the merge-resolution logic of the cursor-rules repository
(`bin/rules-pull.js`).  Text blobs are modelled as `List Char` (JavaScript
strings), file-system effects as an explicit event trace, and the pull
pipeline of `main` (lines 102-248 of `bin/rules-pull.js`) as a pure
function from its inputs to that trace plus a final status.
-/

namespace CursorRules

/-- Coerce a Lean string literal to the `List Char` representation used for
JavaScript strings throughout this development. -/
def str (s : String) : List Char := s.data

/-- Split a character list into lines at every newline character, the way
JavaScript `split("\n")` does on a non-empty string: `n` newline characters
produce `n + 1` lines. -/
def splitLines : List Char → List (List Char)
  | [] => [[]]
  | c :: cs =>
    if c = '\n' then [] :: splitLines cs
    else
      match splitLines cs with
      | [] => [[c]]
      | h :: t => (c :: h) :: t

theorem splitLines_ne_nil (cs : List Char) : splitLines cs ≠ [] := by
  induction cs with
  | nil => simp [splitLines]
  | cons c cs ih =>
    by_cases hc : c = '\n'
    · simp [splitLines, hc]
    · cases h : splitLines cs with
      | nil => exact absurd h ih
      | cons x xs => simp [splitLines, hc, h]

theorem splitLines_append_newline (a b : List Char) :
    splitLines (a ++ '\n' :: b) = splitLines a ++ splitLines b := by
  induction a with
  | nil => simp [splitLines]
  | cons c cs ih =>
    by_cases hc : c = '\n'
    · simp only [List.cons_append, splitLines, if_pos hc, List.append_eq, ih]
    · cases h : splitLines cs with
      | nil => exact absurd h (splitLines_ne_nil cs)
      | cons x xs =>
        have h2 : splitLines (cs ++ '\n' :: b) = x :: (xs ++ splitLines b) := by
          rw [ih, h]; simp
        simp only [List.cons_append, splitLines, if_neg hc, List.append_eq, h2, h]

/-- Number of lines in a text that consist exactly of the conflict-marker
start line `<<<<<<< REMOTE`; used to count conflict-marker blocks, since the
generated marker format contains exactly one such line per block. -/
def markerLineCount (t : List Char) : Nat :=
  ((splitLines t).filter (fun ln => ln = str "<<<<<<< REMOTE")).length

/-- Embeds `generateConflictMarkers` (bin/rules-pull.js lines 269-276): the
template literal `<<<<<<< REMOTE\n...\n=======\n...\n>>>>>>> LOCAL\n`. -/
def generateConflictMarkers (remoteContent localContent : List Char) : List Char :=
  str "<<<<<<< REMOTE\n" ++
    (remoteContent ++ (str "\n=======\n" ++ (localContent ++ str "\n>>>>>>> LOCAL\n")))

/-- Embeds the `simple` strategy's merged content (bin/rules-pull.js line 141):
the template literal joining remote and local with the separator comment. -/
def simpleMergeContent (remoteContent localContent : List Char) : List Char :=
  remoteContent ++
    (str "\n\n# Local additions below\n# =======\x3d=======\x3d=======\x3d=======\x3d=======\x3d\n\n" ++
      localContent)

/-- Embeds `generateManualMergeFile` (bin/rules-pull.js lines 278-299): the
document opened in the editor for a manual merge. -/
def generateManualMergeFile (remoteContent localContent : List Char) : List Char :=
  str "# MANUAL MERGE REQUIRED\n# =======\x3d=======\x3d=======\x3d=======\x3d=======\x3d=======\x3d===\n# Instructions:\n# 1. Below you\x27ll find both the remote and local versions\n# 2. Edit this file to create the merged version you want\n# 3. Save and close when you\x27re done\n# =======\x3d=======\x3d=======\x3d=======\x3d=======\x3d=======\x3d===\n\n# REMOTE VERSION\n# =======\x3d=======\x3d=======\x3d=======\x3d=======\x3d=======\x3d===\n" ++
    (remoteContent ++
      (str "\n\n# LOCAL VERSION\n# =======\x3d=======\x3d=======\x3d=======\x3d=======\x3d=======\x3d===\n" ++
        (localContent ++
          str "\n\n# YOUR MERGED VERSION BELOW (edit as needed)\n# =======\x3d=======\x3d=======\x3d=======\x3d=======\x3d=======\x3d===\n\n")))

/-! ### The three-way-merge dependency

`bin/rules-pull.js` line 151 calls the external npm package `three-way-merge`,
whose source is not part of this repository.  The definitions below are
modelled from the spec (section 4.1): a line-oriented three-way diff that
aligns remote and local against the base via longest-common-subsequence
matchings, applies hunks changed on only one side cleanly, and reports a
`ConflictRegion` for hunks changed differently on both sides.  An absent base
is treated as an empty blob with no lines, so that every line of remote and
local counts as added (spec sections 3 and 4.1: with no base the conflict is
the whole-file divergence, degenerate case). -/

/-- Modelled from the spec: line decomposition of a text blob, where the
absent/empty base blob has no lines at all. -/
def linesOf (t : List Char) : List (List Char) :=
  if t = [] then [] else splitLines t

/-- Modelled from the spec: index pairs of a longest common subsequence of two
indexed line lists, in increasing order of both indices.  Fuel-based so the
function reduces definitionally; callers supply fuel `≥` the total length. -/
def lcsIdx : Nat → List (Nat × List Char) → List (Nat × List Char) → List (Nat × Nat)
  | _, [], _ => []
  | _, _, [] => []
  | 0, _, _ => []
  | fuel + 1, (i, x) :: xs, (j, y) :: ys =>
    if x = y then (i, j) :: lcsIdx fuel xs ys
    else
      let a := lcsIdx fuel ((i, x) :: xs) ys
      let b := lcsIdx fuel xs ((j, y) :: ys)
      if b.length ≤ a.length then a else b

/-- Modelled from the spec: base indices matched on both sides, with the
corresponding remote and local indices. -/
def joinAnchors : Nat → List (Nat × Nat) → List (Nat × Nat) → List (Nat × Nat × Nat)
  | _, [], _ => []
  | _, _, [] => []
  | 0, _, _ => []
  | fuel + 1, (i, j) :: xs, (i2, k) :: ys =>
    if i = i2 then (i, j, k) :: joinAnchors fuel xs ys
    else if i < i2 then joinAnchors fuel xs ((i2, k) :: ys)
    else joinAnchors fuel ((i, j) :: xs) ys

/-- Modelled from the spec: a chunk of the three-way alignment, either a line
stable in all three versions or an unstable region of base/remote/local
segments. -/
inductive Chunk where
  | stable (line : List Char)
  | unstable (baseSeg remoteSeg localSeg : List (List Char))
deriving DecidableEq

/-- Modelled from the spec: the segment of `xs` from index `lo` (inclusive) to
`hi` (exclusive). -/
def seg (xs : List (List Char)) (lo hi : Nat) : List (List Char) :=
  (xs.drop lo).take (hi - lo)

/-- Modelled from the spec: cut the three line lists into alternating unstable
regions and stable lines at the anchor positions. -/
def buildChunks (base remote localB : List (List Char)) :
    List (Nat × Nat × Nat) → Nat → Nat → Nat → List Chunk
  | [], bi, ri, li =>
    [Chunk.unstable (base.drop bi) (remote.drop ri) (localB.drop li)]
  | (i, j, k) :: rest, bi, ri, li =>
    Chunk.unstable (seg base bi i) (seg remote ri j) (seg localB li k) ::
      Chunk.stable (base.getD i []) ::
        buildChunks base remote localB rest (i + 1) (j + 1) (k + 1)

/-- Modelled from the spec: the inline conflict-marker rendering of one
conflict region, in the fixed textual form of section 4.1. -/
def conflictLines (r l : List (List Char)) : List (List Char) :=
  str "<<<<<<< REMOTE" :: (r ++ (str "=======" :: (l ++ [str ">>>>>>> LOCAL"])))

/-- Modelled from the spec: resolve each chunk — identical changes and
one-sided changes apply cleanly, diverging changes become a conflict region
rendered with inline markers. -/
def resolveChunks : List Chunk →
    List (List Char) × List (List (List Char) × List (List Char))
  | [] => ([], [])
  | Chunk.stable line :: rest =>
    let (out, regs) := resolveChunks rest
    (line :: out, regs)
  | Chunk.unstable b r l :: rest =>
    let (out, regs) := resolveChunks rest
    if r = l then (r ++ out, regs)
    else if r = b then (l ++ out, regs)
    else if l = b then (r ++ out, regs)
    else (conflictLines r l ++ out, (r, l) :: regs)

/-- Modelled from the spec: join merged lines back into one text blob. -/
def joinLines (ls : List (List Char)) : List Char :=
  List.intercalate (str "\n") ls

/-- Outcome of the three-way merge: the merged text, the conflict flag the
caller destructures, and the conflict regions the spec says are reported. -/
structure TWResult where
  result : List Char
  conflict : Bool
  regions : List (List (List Char) × List (List Char))
deriving DecidableEq

/-- Modelled from the spec: the `threeWayMerge` function of the external
`three-way-merge` npm package called at bin/rules-pull.js line 151. -/
def threeWayMerge (base remote localB : List Char) : TWResult :=
  let b := linesOf base
  let r := linesOf remote
  let l := linesOf localB
  let fuel := b.length + r.length + l.length + 1
  let anchors := joinAnchors fuel (lcsIdx fuel b.enum r.enum) (lcsIdx fuel b.enum l.enum)
  let (out, regs) := resolveChunks (buildChunks b r l anchors 0 0 0)
  { result := joinLines out, conflict := !regs.isEmpty, regions := regs }

/-- With the empty base that bin/rules-pull.js line 150 hardcodes, the whole
of remote and the whole of local form one unstable region: equal or one-sided
texts merge cleanly, anything else is a single whole-file conflict region. -/
theorem threeWayMerge_empty_base (remote localB : List Char) :
    threeWayMerge [] remote localB =
      if linesOf remote = linesOf localB then
        ⟨joinLines (linesOf remote), false, []⟩
      else if linesOf remote = [] then
        ⟨joinLines (linesOf localB), false, []⟩
      else if linesOf localB = [] then
        ⟨joinLines (linesOf remote), false, []⟩
      else
        ⟨joinLines (conflictLines (linesOf remote) (linesOf localB)), true,
          [(linesOf remote, linesOf localB)]⟩ := by
  have hb : linesOf ([] : List Char) = [] := by simp [linesOf]
  simp only [threeWayMerge, hb, List.enum_nil, List.length_nil, lcsIdx, joinAnchors,
    buildChunks, List.drop_zero, List.drop_nil, resolveChunks]
  by_cases h1 : linesOf remote = linesOf localB
  · simp [h1, List.isEmpty]
  · by_cases h2 : linesOf remote = [] <;> by_cases h3 : linesOf localB = [] <;>
      simp_all [List.isEmpty]

/-! ### Option validation and the pull pipeline -/

/-- Outcome of the merge-strategy option check: either the program proceeds,
or it terminates the whole process with the given exit code. -/
inductive StrategyCheck where
  | proceed
  | exitProcess (code : Nat)
deriving DecidableEq

/-- Embeds the option validation of bin/rules-pull.js lines 50-53: a merge
strategy outside `simple`, `smart`, `manual` prints an error and calls
`process.exit(1)`. -/
def validateStrategy (mergeStrategy : List Char) : StrategyCheck :=
  if [str "simple", str "smart", str "manual"].contains mergeStrategy then
    StrategyCheck.proceed
  else
    StrategyCheck.exitProcess 1

/-- The decimal digits of a natural number, standing for the JavaScript
`Date.now()` timestamp interpolated into the backup file name. -/
def natChars (n : Nat) : List Char := (toString n).data

/-- A file-system effect performed by the pull pipeline, in order. -/
inductive Event where
  | backupCreated (path : List Char)
  | fileWritten (path content : List Char)
  | promptShown
deriving DecidableEq

/-- How one run of the pull pipeline ended. -/
inductive PullStatus where
  | wroteNew
  | upToDate
  | merged (hasConflict : Bool)
  | awaitingUser
  | didNothing
deriving DecidableEq

/-- Embeds the body of `main` in bin/rules-pull.js, lines 102-248, as a pure
function from its inputs to the ordered file-system effects and the final
status:
* `now` is the JavaScript `Date.now()` value used for the backup name;
* `backup`, `force` and `mergeStrategy` are the CLI options;
* `localFileExists`/`localDisk` describe the destination file;
* `libThrew` says whether the `threeWayMerge` library call raised.

The branches mirror the source: backup of an existing local file
(lines 108-118), overwrite when the file is missing or `--force` is given
(lines 121-124), the byte-equality fast path (lines 127-131), the `simple`
case (lines 139-144), the `smart` case with its catch-and-fall-back to the
interactive prompt (lines 146-241), and the empty `manual` case
(lines 244-246), which does nothing. -/
def pullRun (dest : List Char) (now : Nat) (backup force localFileExists : Bool)
    (localDisk remoteContent : List Char) (mergeStrategy : List Char)
    (libThrew : Bool) : List Event × PullStatus :=
  let localContent := if localFileExists then localDisk else []
  let ev0 :=
    if localFileExists && backup then
      [Event.backupCreated (dest ++ (str ".backup." ++ natChars now))]
    else []
  if !localFileExists || force then
    (ev0 ++ [Event.fileWritten dest remoteContent], PullStatus.wroteNew)
  else if localContent = remoteContent then
    (ev0, PullStatus.upToDate)
  else if mergeStrategy = str "simple" then
    (ev0 ++ [Event.fileWritten dest (simpleMergeContent remoteContent localContent)],
      PullStatus.merged false)
  else if mergeStrategy = str "smart" then
    if libThrew then
      (ev0 ++ [Event.promptShown], PullStatus.awaitingUser)
    else
      let m := threeWayMerge [] remoteContent localContent
      if m.conflict then
        (ev0 ++ [Event.fileWritten dest (generateConflictMarkers remoteContent localContent)],
          PullStatus.merged true)
      else
        (ev0 ++ [Event.fileWritten dest m.result], PullStatus.merged false)
  else if mergeStrategy = str "manual" then
    (ev0, PullStatus.didNothing)
  else
    (ev0, PullStatus.didNothing)

/-- The content of the file at `dest` after a trace of events, starting from
`initial`; later writes to `dest` overwrite earlier ones. -/
def destContentAfter (initial dest : List Char) (events : List Event) : List Char :=
  events.foldl
    (fun acc e =>
      match e with
      | Event.fileWritten p c => if p = dest then c else acc
      | _ => acc)
    initial

/-! ### The interactive (manual) decision flow -/

/-- One of the four choices offered by the interactive prompt of
bin/rules-pull.js lines 177-187, with the edited document and the editing
confirmation attached to the manual-edit choice. -/
inductive ManualAction where
  | keepRemote
  | keepLocal
  | concatAction
  | editManually (editedContent : List Char) (confirmed : Bool)
deriving DecidableEq

/-- Embeds the action switch of bin/rules-pull.js lines 191-239: the content
of the destination file after the chosen action.  `keepRemote` writes the
remote text, `keepLocal` writes nothing (the local text stays), `concatAction`
writes the same separator template as the `simple` strategy (line 201), and a
confirmed manual edit writes the whole edited temp file verbatim
(lines 230-231); a cancelled edit leaves the local text in place. -/
def destAfterAction (remoteContent localContent : List Char) :
    ManualAction → List Char
  | ManualAction.keepRemote => remoteContent
  | ManualAction.keepLocal => localContent
  | ManualAction.concatAction =>
    remoteContent ++
      (str "\n\n# Local additions below\n# =======\x3d=======\x3d=======\x3d=======\x3d=======\x3d\n\n" ++
        localContent)
  | ManualAction.editManually editedContent confirmed =>
    if confirmed then editedContent else localContent

/-- The heading of the section of the generated manual-merge document under
which the user is told to put the merged version (bin/rules-pull.js
line 295). -/
def sentinelHeading : List Char := str "# YOUR MERGED VERSION BELOW (edit as needed)"

/-- Everything after the first occurrence of `pat` in a text, or `none` when
`pat` does not occur.  Used to state the spec's sentinel-parsing convention
for the manual-merge document. -/
def textAfter (pat : List Char) : List Char → Option (List Char)
  | [] => if pat.isPrefixOf ([] : List Char) then some [] else none
  | c :: cs =>
    if pat.isPrefixOf (c :: cs) then some ((c :: cs).drop pat.length)
    else textAfter pat cs

/-! ### Helper lemmas -/

theorem splitLines_generateConflictMarkers (r l : List Char) :
    splitLines (generateConflictMarkers r l) =
      [str "<<<<<<< REMOTE"] ++ splitLines r ++ [str "======="] ++ splitLines l ++
        [str ">>>>>>> LOCAL", []] := by
  have h : generateConflictMarkers r l =
      str "<<<<<<< REMOTE" ++ '\n' ::
        (r ++ '\n' ::
          (str "=======" ++ '\n' ::
            (l ++ '\n' :: (str ">>>>>>> LOCAL" ++ '\n' :: ([] : List Char))))) := rfl
  have e1 : splitLines (str "<<<<<<< REMOTE") = [str "<<<<<<< REMOTE"] := by decide
  have e2 : splitLines (str "=======") = [str "======="] := by decide
  have e3 : splitLines (str ">>>>>>> LOCAL") = [str ">>>>>>> LOCAL"] := by decide
  have e4 : splitLines ([] : List Char) = [[]] := by decide
  rw [h, splitLines_append_newline, splitLines_append_newline, splitLines_append_newline,
    splitLines_append_newline, splitLines_append_newline, e1, e2, e3, e4]
  simp

theorem markerLineCount_generateConflictMarkers (r l : List Char) :
    markerLineCount (generateConflictMarkers r l) =
      1 + markerLineCount r + markerLineCount l := by
  simp only [markerLineCount, splitLines_generateConflictMarkers, List.filter_append,
    List.length_append]
  have e1 : (List.filter (fun ln => ln = str "<<<<<<< REMOTE") [str "<<<<<<< REMOTE"]).length
      = 1 := by decide
  have e2 : (List.filter (fun ln => ln = str "<<<<<<< REMOTE") [str "======="]).length
      = 0 := by decide
  have e3 : (List.filter (fun ln => ln = str "<<<<<<< REMOTE")
      [str ">>>>>>> LOCAL", ([] : List Char)]).length = 0 := by decide
  rw [e1, e2, e3]
  omega

theorem regions_length_of_conflict_empty_base (r l : List Char)
    (hc : (threeWayMerge [] r l).conflict = true) :
    (threeWayMerge [] r l).regions.length = 1 := by
  rw [threeWayMerge_empty_base] at hc ⊢
  by_cases h1 : linesOf r = linesOf l
  · simp [h1] at hc
  · by_cases h2 : linesOf r = []
    · rw [if_neg h1, if_pos h2] at hc
      simp at hc
    · by_cases h3 : linesOf l = []
      · simp [h1, h2, h3] at hc
      · simp [h1, h2, h3]

theorem ne_of_conflict_empty_base (r l : List Char)
    (hc : (threeWayMerge [] r l).conflict = true) : l ≠ r := by
  intro h
  subst h
  rw [threeWayMerge_empty_base] at hc
  simp at hc

/-! ### The claims -/

/-- Claim C1: every merge with the smart (ThreeWay) strategy that reports a
conflict writes a non-empty merged text containing at least one well-formed
`<<<<<<< REMOTE ... ======= ... >>>>>>> LOCAL` block, and the number of such
blocks (counted by their `<<<<<<< REMOTE` marker lines, for contents that do
not themselves contain such a line) equals the number of conflict regions
reported by the three-way merge — with the hardcoded empty base that is
always exactly one whole-file region. -/
theorem smart_conflict_markers_wellformed (dest : List Char) (now : Nat) (bk : Bool)
    (remote localDisk : List Char)
    (hc : (threeWayMerge [] remote localDisk).conflict = true)
    (hr : markerLineCount remote = 0) (hl : markerLineCount localDisk = 0) :
    pullRun dest now bk false true localDisk remote (str "smart") false
      = ((if bk then [Event.backupCreated (dest ++ (str ".backup." ++ natChars now))] else [])
          ++ [Event.fileWritten dest (generateConflictMarkers remote localDisk)],
        PullStatus.merged true) ∧
    generateConflictMarkers remote localDisk ≠ [] ∧
    (∃ u a b v, generateConflictMarkers remote localDisk =
        u ++ (str "<<<<<<< REMOTE\n" ++
          (a ++ (str "\n=======\n" ++ (b ++ (str "\n>>>>>>> LOCAL\n" ++ v)))))) ∧
    markerLineCount (generateConflictMarkers remote localDisk)
      = (threeWayMerge [] remote localDisk).regions.length := by
  have hne : localDisk ≠ remote := ne_of_conflict_empty_base remote localDisk hc
  have hs1 : str "smart" ≠ str "simple" := by decide
  refine ⟨?_, ?_, ?_, ?_⟩
  · simp [pullRun, hne, hs1, hc]
  · simp [generateConflictMarkers, str]
  · exact ⟨[], remote, localDisk, [], by simp [generateConflictMarkers]⟩
  · rw [markerLineCount_generateConflictMarkers, hr, hl,
      regions_length_of_conflict_empty_base remote localDisk hc]

/-- Witness for C1 at remote `A`, local `B`. -/
theorem smart_conflict_markers_wellformed_witness :
    (threeWayMerge [] (str "A") (str "B")).conflict = true ∧
    markerLineCount (str "A") = 0 ∧
    markerLineCount (str "B") = 0 ∧
    (pullRun (str "d") 0 false false true (str "B") (str "A") (str "smart") false
      = ((if false then
            [Event.backupCreated (str "d" ++ (str ".backup." ++ natChars 0))] else [])
          ++ [Event.fileWritten (str "d") (generateConflictMarkers (str "A") (str "B"))],
        PullStatus.merged true) ∧
    generateConflictMarkers (str "A") (str "B") ≠ [] ∧
    (∃ u a b v, generateConflictMarkers (str "A") (str "B") =
        u ++ (str "<<<<<<< REMOTE\n" ++
          (a ++ (str "\n=======\n" ++ (b ++ (str "\n>>>>>>> LOCAL\n" ++ v)))))) ∧
    markerLineCount (generateConflictMarkers (str "A") (str "B"))
      = (threeWayMerge [] (str "A") (str "B")).regions.length) :=
  ⟨by decide, by decide, by decide,
    smart_conflict_markers_wellformed (str "d") 0 false (str "A") (str "B")
      (by decide) (by decide) (by decide)⟩

/-- Claim C2 counterexample: with remote `A\nX\nC` and local `A\nB\nY`
(the spec's non-overlapping scenario), the smart strategy does not merge
cleanly to `A\nX\nY`: because bin/rules-pull.js line 150 hardcodes an empty
common ancestor, the three-way merge reports a conflict and the pipeline
writes whole-file conflict markers instead. -/
theorem smart_scenario_counterexample :
    pullRun (str "d") 0 false false true (str "A\nB\nY") (str "A\nX\nC") (str "smart") false
      = ([Event.fileWritten (str "d")
            (generateConflictMarkers (str "A\nX\nC") (str "A\nB\nY"))],
          PullStatus.merged true) ∧
    generateConflictMarkers (str "A\nX\nC") (str "A\nB\nY") ≠ str "A\nX\nY" ∧
    (threeWayMerge [] (str "A\nX\nC") (str "A\nB\nY")).conflict = true :=
  ⟨by decide, by decide, by decide⟩

/-- Claim C2 amended: the program never supplies a base — line 150 always
passes the empty string to the three-way merge — so any two differing
non-empty texts (in particular the scenario's remote `A\nX\nC` and local
`A\nB\nY`) are treated as wholly added on both sides, the merge reports a
conflict, and the pipeline writes conflict markers rather than a clean
one-sided merge. -/
theorem smart_merge_empty_base_conflicts (dest : List Char) (now : Nat) (bk : Bool)
    (remote localDisk : List Char)
    (h1 : linesOf remote ≠ []) (h2 : linesOf localDisk ≠ [])
    (h3 : linesOf remote ≠ linesOf localDisk) :
    (threeWayMerge [] remote localDisk).conflict = true ∧
    pullRun dest now bk false true localDisk remote (str "smart") false
      = ((if bk then [Event.backupCreated (dest ++ (str ".backup." ++ natChars now))] else [])
          ++ [Event.fileWritten dest (generateConflictMarkers remote localDisk)],
        PullStatus.merged true) := by
  have hc : (threeWayMerge [] remote localDisk).conflict = true := by
    rw [threeWayMerge_empty_base]
    simp [h1, h2, h3]
  have hne : localDisk ≠ remote := ne_of_conflict_empty_base _ _ hc
  have hs1 : str "smart" ≠ str "simple" := by decide
  exact ⟨hc, by simp [pullRun, hne, hs1, hc]⟩

/-- Witness for the amended C2 at the spec's scenario texts. -/
theorem smart_merge_empty_base_conflicts_witness :
    linesOf (str "A\nX\nC") ≠ [] ∧ linesOf (str "A\nB\nY") ≠ [] ∧
    linesOf (str "A\nX\nC") ≠ linesOf (str "A\nB\nY") ∧
    ((threeWayMerge [] (str "A\nX\nC") (str "A\nB\nY")).conflict = true ∧
      pullRun (str "d") 7 false false true (str "A\nB\nY") (str "A\nX\nC") (str "smart") false
        = ((if false then
              [Event.backupCreated (str "d" ++ (str ".backup." ++ natChars 7))] else [])
            ++ [Event.fileWritten (str "d")
                  (generateConflictMarkers (str "A\nX\nC") (str "A\nB\nY"))],
          PullStatus.merged true)) :=
  ⟨by decide, by decide, by decide,
    smart_merge_empty_base_conflicts (str "d") 7 false (str "A\nX\nC") (str "A\nB\nY")
      (by decide) (by decide) (by decide)⟩

/-- Claim C3: whenever the existing local file is byte-equal to the remote
text, the pull is a no-op fast path for every strategy (bin/rules-pull.js
lines 127-131): the run ends up-to-date before any strategy branch runs, no
file is written — so the destination still holds the common text — and no
conflict is reported. -/
theorem fast_path_noop (dest : List Char) (now : Nat) (bk : Bool) (x strategy : List Char)
    (libThrew : Bool) :
    pullRun dest now bk false true x x strategy libThrew
      = ((if bk then [Event.backupCreated (dest ++ (str ".backup." ++ natChars now))] else []),
          PullStatus.upToDate) ∧
    destContentAfter x dest (pullRun dest now bk false true x x strategy libThrew).1 = x := by
  have h : pullRun dest now bk false true x x strategy libThrew
      = ((if bk then [Event.backupCreated (dest ++ (str ".backup." ++ natChars now))] else []),
          PullStatus.upToDate) := by
    simp [pullRun]
  refine ⟨h, ?_⟩
  rw [h]
  by_cases hbk : bk <;> simp [hbk, destContentAfter]

/-- Claim C4: the simple (Concatenate) strategy always produces
remote ++ separator-comment ++ local — hence the merged text contains remote
and local as contiguous substrings in that order — and never reports a
conflict (bin/rules-pull.js lines 139-144; the strategy branch runs exactly
when the fast path did not fire, i.e. when the two texts differ). -/
theorem simple_strategy_concatenates (remote localDisk : List Char) :
    simpleMergeContent remote localDisk
      = remote ++
          (str "\n\n# Local additions below\n# =======\x3d=======\x3d=======\x3d=======\x3d=======\x3d\n\n"
            ++ localDisk) ∧
    (∃ u v w, simpleMergeContent remote localDisk
        = u ++ (remote ++ (v ++ (localDisk ++ w)))) ∧
    (∀ dest now bk, localDisk ≠ remote →
      pullRun dest now bk false true localDisk remote (str "simple") false
        = ((if bk then
              [Event.backupCreated (dest ++ (str ".backup." ++ natChars now))] else [])
            ++ [Event.fileWritten dest (simpleMergeContent remote localDisk)],
          PullStatus.merged false)) := by
  refine ⟨rfl,
    ⟨[], str "\n\n# Local additions below\n# =======\x3d=======\x3d=======\x3d=======\x3d=======\x3d\n\n",
      [], by simp [simpleMergeContent]⟩, ?_⟩
  intro dest now bk hne
  simp [pullRun, hne]

/-- Witness for C4 at remote `R`, local `L`. -/
theorem simple_strategy_concatenates_witness :
    str "L" ≠ str "R" ∧
    pullRun (str "d") 0 false false true (str "L") (str "R") (str "simple") false
      = ((if false then
            [Event.backupCreated (str "d" ++ (str ".backup." ++ natChars 0))] else [])
          ++ [Event.fileWritten (str "d") (simpleMergeContent (str "R") (str "L"))],
        PullStatus.merged false) :=
  ⟨by decide,
    (simple_strategy_concatenates (str "R") (str "L")).2.2 (str "d") 0 false (by decide)⟩

/-- Claim C5 (code-bug evidence): selecting the manual (Interactive) strategy
directly does nothing at all — the `case manual` branch of the strategy
switch (bin/rules-pull.js lines 244-246) is empty, so with differing remote
and local texts no three-way merge is attempted, no diff-and-prompt flow is
reached, no file is written, and the run still ends as if handled; this
contradicts the README ("manual: Provides an interactive interface to choose
how to merge files") and the branch's own comment claiming the case is
handled by the smart-merge fallback. -/
theorem manual_strategy_does_nothing (dest : List Char) (now : Nat) (bk : Bool)
    (remote localDisk : List Char) (hne : localDisk ≠ remote) :
    pullRun dest now bk false true localDisk remote (str "manual") false
      = ((if bk then [Event.backupCreated (dest ++ (str ".backup." ++ natChars now))] else []),
          PullStatus.didNothing) ∧
    Event.promptShown ∉ (pullRun dest now bk false true localDisk remote (str "manual") false).1 ∧
    destContentAfter localDisk dest
        (pullRun dest now bk false true localDisk remote (str "manual") false).1
      = localDisk := by
  have hs1 : str "manual" ≠ str "simple" := by decide
  have hs2 : str "manual" ≠ str "smart" := by decide
  have h : pullRun dest now bk false true localDisk remote (str "manual") false
      = ((if bk then [Event.backupCreated (dest ++ (str ".backup." ++ natChars now))] else []),
          PullStatus.didNothing) := by
    simp [pullRun, hne, hs1, hs2]
  refine ⟨h, ?_, ?_⟩ <;> rw [h] <;> by_cases hbk : bk <;> simp [hbk, destContentAfter]

/-- Witness for C5's failing input: remote `R`, local `L`, strategy
`manual`. -/
theorem manual_strategy_does_nothing_witness :
    str "L" ≠ str "R" ∧
    (pullRun (str "d") 0 true false true (str "L") (str "R") (str "manual") false
      = ((if true then
            [Event.backupCreated (str "d" ++ (str ".backup." ++ natChars 0))] else []),
          PullStatus.didNothing) ∧
    Event.promptShown ∉
      (pullRun (str "d") 0 true false true (str "L") (str "R") (str "manual") false).1 ∧
    destContentAfter (str "L") (str "d")
        (pullRun (str "d") 0 true false true (str "L") (str "R") (str "manual") false).1
      = str "L") :=
  ⟨by decide,
    manual_strategy_does_nothing (str "d") 0 true (str "R") (str "L") (by decide)⟩

/-- Claim C6: applying a user decision is total over the four prompt choices
and deterministic (bin/rules-pull.js lines 191-239): keeping the remote
version yields the remote text, keeping the local version leaves the local
text, concatenating yields the same separator template as the simple
strategy, and a confirmed manual edit round-trips the edited text verbatim
with no further validation. -/
theorem applyDecision_deterministic (remote localDisk edited : List Char) :
    destAfterAction remote localDisk ManualAction.keepRemote = remote ∧
    destAfterAction remote localDisk ManualAction.keepLocal = localDisk ∧
    destAfterAction remote localDisk ManualAction.concatAction
      = simpleMergeContent remote localDisk ∧
    destAfterAction remote localDisk (ManualAction.editManually edited true) = edited :=
  ⟨rfl, rfl, rfl, rfl⟩

/-- Claim C7 counterexample: the code does not parse the edited manual-merge
document at a sentinel heading.  An edited document with no sentinel heading
is written verbatim instead of failing with `MalformedManualMerge`, and an
edited document that does contain the heading is also written in full, not
cut down to the text after the heading. -/
theorem manual_parse_counterexample :
    destAfterAction (str "R") (str "L") (ManualAction.editManually (str "hello") true)
      = str "hello" ∧
    textAfter sentinelHeading (str "hello") = none ∧
    textAfter sentinelHeading (str "X\n# YOUR MERGED VERSION BELOW (edit as needed)\nY")
      = some (str "\nY") ∧
    destAfterAction (str "R") (str "L")
        (ManualAction.editManually
          (str "X\n# YOUR MERGED VERSION BELOW (edit as needed)\nY") true)
      ≠ str "\nY" :=
  ⟨by decide, by decide, by decide, by decide⟩

/-- Claim C7 amended: the generated manual-merge document does end with the
fixed heading `# YOUR MERGED VERSION BELOW (edit as needed)`, but the code
takes the whole user-edited document verbatim as the final merged text
(bin/rules-pull.js lines 230-231) — nothing is parsed out after the heading
and there is no malformed-document failure; a cancelled edit leaves the
local text in place. -/
theorem manual_merge_taken_verbatim (remote localDisk edited : List Char) :
    (∃ u v, generateManualMergeFile remote localDisk = u ++ (sentinelHeading ++ v)) ∧
    destAfterAction remote localDisk (ManualAction.editManually edited true) = edited ∧
    destAfterAction remote localDisk (ManualAction.editManually edited false)
      = localDisk := by
  refine ⟨⟨str "# MANUAL MERGE REQUIRED\n# =======\x3d=======\x3d=======\x3d=======\x3d=======\x3d=======\x3d===\n# Instructions:\n# 1. Below you\x27ll find both the remote and local versions\n# 2. Edit this file to create the merged version you want\n# 3. Save and close when you\x27re done\n# =======\x3d=======\x3d=======\x3d=======\x3d=======\x3d=======\x3d===\n\n# REMOTE VERSION\n# =======\x3d=======\x3d=======\x3d=======\x3d=======\x3d=======\x3d===\n" ++
      (remote ++
        (str "\n\n# LOCAL VERSION\n# =======\x3d=======\x3d=======\x3d=======\x3d=======\x3d=======\x3d===\n" ++
          (localDisk ++ str "\n\n"))),
    str "\n# =======\x3d=======\x3d=======\x3d=======\x3d=======\x3d=======\x3d===\n\n", ?_⟩, rfl, rfl⟩
  have e : str "\n\n" ++
      (sentinelHeading ++ str "\n# =======\x3d=======\x3d=======\x3d=======\x3d=======\x3d=======\x3d===\n\n")
      = str "\n\n# YOUR MERGED VERSION BELOW (edit as needed)\n# =======\x3d=======\x3d=======\x3d=======\x3d=======\x3d=======\x3d===\n\n" := by
    decide
  simp only [generateManualMergeFile, List.append_assoc, e]

/-- Claim C8 counterexample: an unrecognized merge strategy is fatal to the
process — bin/rules-pull.js lines 50-53 call `process.exit(1)` — so the
failure is not recoverable by the caller. -/
theorem invalid_strategy_counterexample :
    validateStrategy (str "bogus") = StrategyCheck.exitProcess 1 ∧
    validateStrategy (str "bogus") ≠ StrategyCheck.proceed :=
  ⟨by decide, by decide⟩

/-- Claim C8 amended: the pull command rejects the merge strategy exactly
when it is none of `simple`, `smart`, `manual` — but it does so by printing
an error and exiting the whole process with code 1, a fatal failure rather
than a recoverable `InvalidStrategy` error. -/
theorem invalid_strategy_exits (s : List Char) :
    validateStrategy s = StrategyCheck.exitProcess 1
      ↔ (s ≠ str "simple" ∧ s ≠ str "smart" ∧ s ≠ str "manual") := by
  by_cases h1 : s = str "simple" <;> by_cases h2 : s = str "smart" <;>
    by_cases h3 : s = str "manual" <;>
      simp [validateStrategy, List.contains, h1, h2, h3]

/-- Witness for the amended C8 at the unrecognized strategy `weird`. -/
theorem invalid_strategy_exits_witness :
    validateStrategy (str "weird") = StrategyCheck.exitProcess 1 :=
  (invalid_strategy_exits (str "weird")).mpr ⟨by decide, by decide, by decide⟩

/-- Claim C9: when the three-way-merge library throws during the smart
strategy, the pull does not fail — the catch block (bin/rules-pull.js
lines 164-170) switches the strategy to manual and the run proceeds to the
interactive diff-and-prompt flow, with the destination file still unwritten
when the prompt is shown. -/
theorem smart_exception_falls_back_to_prompt (dest : List Char) (now : Nat) (bk : Bool)
    (remote localDisk : List Char) (hne : localDisk ≠ remote) :
    pullRun dest now bk false true localDisk remote (str "smart") true
      = ((if bk then [Event.backupCreated (dest ++ (str ".backup." ++ natChars now))] else [])
          ++ [Event.promptShown], PullStatus.awaitingUser) ∧
    destContentAfter localDisk dest
        (pullRun dest now bk false true localDisk remote (str "smart") true).1
      = localDisk := by
  have hs1 : str "smart" ≠ str "simple" := by decide
  have h : pullRun dest now bk false true localDisk remote (str "smart") true
      = ((if bk then [Event.backupCreated (dest ++ (str ".backup." ++ natChars now))] else [])
          ++ [Event.promptShown], PullStatus.awaitingUser) := by
    simp [pullRun, hne, hs1]
  refine ⟨h, ?_⟩
  rw [h]
  by_cases hbk : bk <;> simp [hbk, destContentAfter]

/-- Witness for C9 at remote `R`, local `L`. -/
theorem smart_exception_falls_back_to_prompt_witness :
    str "L" ≠ str "R" ∧
    (pullRun (str "d") 0 false false true (str "L") (str "R") (str "smart") true
      = ((if false then
            [Event.backupCreated (str "d" ++ (str ".backup." ++ natChars 0))] else [])
          ++ [Event.promptShown], PullStatus.awaitingUser) ∧
    destContentAfter (str "L") (str "d")
        (pullRun (str "d") 0 false false true (str "L") (str "R") (str "smart") true).1
      = str "L") :=
  ⟨by decide,
    smart_exception_falls_back_to_prompt (str "d") 0 false (str "R") (str "L") (by decide)⟩

/-- Claim C10: whenever the local destination file exists and backup is
enabled, the very first effect of the run is the creation of the timestamped
backup copy `dest.backup.<Date.now()>` (bin/rules-pull.js lines 108-118) —
before the force-overwrite, the byte-equality fast path and every merge
branch; in particular a run whose texts turn out byte-identical still
creates the backup even though the destination is never written. -/
theorem backup_before_any_decision (dest : List Char) (now : Nat) (force : Bool)
    (localDisk remote strategy : List Char) (libThrew : Bool) :
    (pullRun dest now true force true localDisk remote strategy libThrew).1.head?
      = some (Event.backupCreated (dest ++ (str ".backup." ++ natChars now))) ∧
    pullRun dest now true false true localDisk localDisk strategy libThrew
      = ([Event.backupCreated (dest ++ (str ".backup." ++ natChars now))],
          PullStatus.upToDate) := by
  constructor
  · simp only [pullRun]
    split_ifs <;> simp_all
  · simp [pullRun]

end CursorRules
